import Mathlib

/-!
Shallow embedding of the clinker supply-chain backend
(src/backend/data_parser.py, src/backend/optimizer.py, src/backend/api.py).

Tables are lists of typed rows; a numeric cell is an `Option ℚ` where `none`
models a missing value (NaN in a pandas cell, or a column lookup that found
no row).  The store holds each sheet as an `Option` of its table: `none`
models a sheet name absent from the `self.data` dictionary.  Python float
arithmetic is modelled by exact rational arithmetic, which matches the
decimal constants the code uses (0.01 tolerance, 1 percent holding rate).
The Constraints and HubOpeningStock sheets are optional, feed only the
textual constraints report of the output, and touch no claim, so they are
not embedded.
-/

/-- Row of the Logistics table (LogisticsIUGU.csv): FROM IU CODE,
TO IUGU CODE, TRANSPORT CODE, TIME PERIOD, FREIGHT COST, HANDLING COST,
QUANTITY MULTIPLIER. -/
structure LogRow where
  fromIU : String
  toIUGU : String
  transpCode : String
  period : Int
  freight : Option ℚ
  handling : Option ℚ
  qmult : Option ℚ
deriving DecidableEq

/-- Row of the Demand table (ClinkerDemand.csv): IUGU CODE, TIME PERIOD,
DEMAND, and the optional MIN FULFILLMENT (%) column. -/
structure DemRow where
  iugu : String
  period : Int
  demand : Option ℚ
  minFulfillment : Option ℚ
deriving DecidableEq

/-- Row of the Capacity table (ClinkerCapacity.csv): IU CODE, TIME PERIOD,
CAPACITY. -/
structure CapRow where
  iu : String
  period : Int
  capacity : Option ℚ
deriving DecidableEq

/-- Row of the ProductionCost table (ProductionCost.csv): IU CODE,
TIME PERIOD, PRODUCTION COST. -/
structure ProdRow where
  iu : String
  period : Int
  cost : Option ℚ
deriving DecidableEq

/-- Row of the OpeningStock table (IUGUOpeningStock.csv): IUGU CODE,
OPENING STOCK. -/
structure StockRow where
  iugu : String
  opening : Option ℚ
deriving DecidableEq

/-- Row of the ClosingStock table (IUGUClosingStock.csv): IUGU CODE,
TIME PERIOD, MIN CLOSE STOCK, MAX CLOSE STOCK. -/
structure CloseRow where
  iugu : String
  period : Int
  minClose : Option ℚ
  maxClose : Option ℚ
deriving DecidableEq

/-- Row of the IUGUType table (IUGUType.csv): IUGU CODE, PLANT TYPE, and the
optional # Source column. -/
structure TypeRow where
  iugu : String
  plantType : Option String
  numSources : Option ℚ
deriving DecidableEq

/-- The in-memory dataset `self.data` of ExcelDataParser, one field per
sheet name; `none` when the sheet is not a key of the dictionary. -/
structure ParserData where
  iuguType : Option (List TypeRow)
  logistics : Option (List LogRow)
  demand : Option (List DemRow)
  capacity : Option (List CapRow)
  productionCost : Option (List ProdRow)
  openingStock : Option (List StockRow)
  closingStock : Option (List CloseRow)
deriving DecidableEq

/-- The parser singleton state: the loaded tables plus the is_loaded flag. -/
structure ParserState where
  data : ParserData
  is_loaded : Bool
deriving DecidableEq

/-- ExcelDataParser._has_complete_data (data_parser.py lines 394-449).
Sequential early returns become nested matches; note that the freight check
reads `route_data['FREIGHT COST'].iloc[0]`, the FIRST matching row only.
The typed rows always carry the schema columns, so the column-present
fallbacks of the source (IU CODE versus IUGU CODE) resolve to the schema
column. -/
def has_complete_data (pd : ParserData) (source destination : String) : Bool :=
  match pd.logistics with
  | none => false
  | some logistics_df =>
    let route_data := logistics_df.filter
      (fun r => r.fromIU == source && r.toIUGU == destination)
    match route_data.head? with
    | none => false
    | some row0 =>
      match row0.freight with
      | none => false
      | some _ =>
        (match pd.productionCost with
         | none => false
         | some prod_df =>
           !(prod_df.filter (fun r => r.iu == source)).isEmpty) &&
        (match pd.capacity with
         | none => false
         | some cap_df =>
           !(cap_df.filter (fun r => r.iu == source)).isEmpty) &&
        (match pd.demand with
         | none => false
         | some demand_df =>
           !(demand_df.filter (fun r => r.iugu == destination)).isEmpty)

/-- ExcelDataParser.get_destinations_for_source (data_parser.py lines
378-392): the distinct destinations reachable from the source in the
Logistics table, kept only when the pair has complete data. -/
def get_destinations_for_source (st : ParserState) (source_iu : String) :
    List String :=
  if !st.is_loaded then []
  else
    match st.data.logistics with
    | none => []
    | some df =>
      let all_destinations :=
        ((df.filter (fun r => r.fromIU == source_iu)).map
          (fun r => r.toIUGU)).dedup
      all_destinations.filter
        (fun dest => has_complete_data st.data source_iu dest)

/-- The source_ius metadata entry: distinct FROM IU CODE values of the
Logistics table (ExcelDataParser._extract_metadata), then filtered by
_filter_sources_with_complete_data to the sources with at least one valid
destination. -/
def source_ius (st : ParserState) : List String :=
  match st.data.logistics with
  | none => []
  | some df =>
    ((df.map (fun r => r.fromIU)).dedup).filter
      (fun s => !(get_destinations_for_source st s).isEmpty)

/-- The periods metadata entry (_extract_metadata): sorted distinct TIME
PERIOD values of the Logistics table, falling back to the Demand table, and
`[]` when the metadata key is absent.  Python sorted() is modelled with
insertionSort. -/
def periods_meta (pd : ParserData) : List Int :=
  match pd.logistics with
  | some df => ((df.map (fun r => r.period)).dedup).insertionSort (· ≤ ·)
  | none =>
    match pd.demand with
    | some df => ((df.map (fun r => r.period)).dedup).insertionSort (· ≤ ·)
    | none => []

/-- ExcelDataParser.get_modes_for_route: distinct TRANSPORT CODE values of
the Logistics rows for the exact (source, destination) pair. -/
def get_modes_for_route (st : ParserState) (source destination : String) :
    List String :=
  if !st.is_loaded then []
  else
    match st.data.logistics with
    | none => []
    | some df =>
      ((df.filter (fun r => r.fromIU == source && r.toIUGU == destination)).map
        (fun r => r.transpCode)).dedup

/-- The validation errors validate_selection can append, as tags of the
formatted message strings of the source. -/
inductive SelErr where
  | noDataset : SelErr
  | unknownSource (s : String) : SelErr
  | unknownRoute (s d : String) : SelErr
  | modeUnavailable (s d m : String) : SelErr
  | unknownPeriod (p : Int) : SelErr
deriving DecidableEq

/-- The dictionary validate_selection returns (valid flag and error list);
warnings stay empty in the source and are dropped. -/
structure Validation where
  valid : Bool
  errors : List SelErr
deriving DecidableEq

/-- ExcelDataParser.validate_selection (data_parser.py lines 726-760).
Each `if cond: valid = False; errors.append(...)` block contributes its
error when its guard holds; the guards use Python truthiness of the
optional arguments. -/
def validate_selection (st : ParserState)
    (source destination mode : Option String) (period : Option Int) :
    Validation :=
  if !st.is_loaded then ⟨false, [SelErr.noDataset]⟩
  else
    let errs1 : List SelErr :=
      match source with
      | some s =>
        if s != "" && !(source_ius st).contains s then [SelErr.unknownSource s]
        else []
      | none => []
    let errs2 : List SelErr :=
      match source, destination with
      | some s, some d =>
        if s != "" && d != "" &&
            !(get_destinations_for_source st s).contains d then
          [SelErr.unknownRoute s d]
        else []
      | _, _ => []
    let errs3 : List SelErr :=
      match source, destination, mode with
      | some s, some d, some m =>
        if s != "" && d != "" && m != "" &&
            !(get_modes_for_route st s d).contains m then
          [SelErr.modeUnavailable s d m]
        else []
      | _, _, _ => []
    let errs4 : List SelErr :=
      match period with
      | some p =>
        if p != 0 && !(periods_meta st.data).contains p then
          [SelErr.unknownPeriod p]
        else []
      | none => []
    let errors := errs1 ++ errs2 ++ errs3 ++ errs4
    ⟨errors.isEmpty, errors⟩

/-- All data for a route, directly from the sheets: the RouteData dataclass
of optimizer.py with NOT_AVAILABLE rendered as `none`.  The derived display
fields (trips_required, total_transport_cost, stock gaps, can_fulfill) and
the constraints list feed only the echoed route dictionary of the output
and are not embedded. -/
structure RouteData where
  source : String
  destination : String
  mode : String
  period : Int
  freight_cost : Option ℚ
  handling_cost : Option ℚ
  quantity_multiplier : Option ℚ
  production_cost : Option ℚ
  source_capacity : Option ℚ
  source_demand : Option ℚ
  destination_demand : Option ℚ
  min_fulfillment_pct : Option ℚ
  source_opening_stock : Option ℚ
  destination_opening_stock : Option ℚ
  source_closing_min : Option ℚ
  source_closing_max : Option ℚ
  destination_closing_min : Option ℚ
  destination_closing_max : Option ℚ
  source_type : Option String
  destination_type : Option String
  source_num_sources : Option ℚ
  destination_num_sources : Option ℚ
deriving DecidableEq

/-- ClinkerOptimizer._get_value: the named column of the first row matching
the mask, or N/A when no row matches or the cell is missing. -/
def get_value {α β : Type} (rows : List α) (mask : α → Bool)
    (col : α → Option β) : Option β :=
  match (rows.filter mask).head? with
  | none => none
  | some r => col r

/-- ClinkerOptimizer._num: coerce a value-or-N/A to a number, with the
default of the caller (0, or 1 for the quantity multiplier). -/
def qnum (v : Option ℚ) (d : ℚ) : ℚ := v.getD d

/-- TRANSPORT_MODES of optimizer.py (lines 23-26): mode code to (name,
vehicle capacity in tons per trip). -/
def TRANSPORT_MODES : List (String × String × ℚ) :=
  [("T1", ("Road", 30)), ("T2", ("Rail", 3000))]

/-- HOLDING_COST_RATE of optimizer.py: 1 percent of production cost per
period. -/
def HOLDING_COST_RATE : ℚ := 1 / 100

/-- ClinkerOptimizer.get_route_data (optimizer.py lines 204-395): every
field fetched with a first-match lookup over the corresponding sheet; a
sheet absent from the store yields N/A for its fields (an absent sheet and
an empty sheet give the same lookups, so the store option collapses to
`getD []`). -/
def opt_get_route_data (pd : ParserData) (source dest mode : String)
    (period : Int) : RouteData :=
  let log := pd.logistics.getD []
  let lmask := fun (r : LogRow) =>
    r.fromIU == source && r.toIUGU == dest && r.transpCode == mode &&
    r.period == period
  let dem := pd.demand.getD []
  let cap := pd.capacity.getD []
  let prod := pd.productionCost.getD []
  let stock := pd.openingStock.getD []
  let close := pd.closingStock.getD []
  let types := pd.iuguType.getD []
  { source := source
    destination := dest
    mode := mode
    period := period
    freight_cost := get_value log lmask (fun r => r.freight)
    handling_cost := get_value log lmask (fun r => r.handling)
    quantity_multiplier := get_value log lmask (fun r => r.qmult)
    production_cost :=
      get_value prod (fun r => r.iu == source && r.period == period)
        (fun r => r.cost)
    source_capacity :=
      get_value cap (fun r => r.iu == source && r.period == period)
        (fun r => r.capacity)
    source_demand :=
      get_value dem (fun r => r.iugu == source && r.period == period)
        (fun r => r.demand)
    destination_demand :=
      get_value dem (fun r => r.iugu == dest && r.period == period)
        (fun r => r.demand)
    min_fulfillment_pct :=
      get_value dem (fun r => r.iugu == dest && r.period == period)
        (fun r => r.minFulfillment)
    source_opening_stock :=
      get_value stock (fun r => r.iugu == source) (fun r => r.opening)
    destination_opening_stock :=
      get_value stock (fun r => r.iugu == dest) (fun r => r.opening)
    source_closing_min :=
      get_value close (fun r => r.iugu == source && r.period == period)
        (fun r => r.minClose)
    source_closing_max :=
      get_value close (fun r => r.iugu == source && r.period == period)
        (fun r => r.maxClose)
    destination_closing_min :=
      get_value close (fun r => r.iugu == dest && r.period == period)
        (fun r => r.minClose)
    destination_closing_max :=
      get_value close (fun r => r.iugu == dest && r.period == period)
        (fun r => r.maxClose)
    source_type :=
      get_value types (fun r => r.iugu == source) (fun r => r.plantType)
    destination_type :=
      get_value types (fun r => r.iugu == dest) (fun r => r.plantType)
    source_num_sources :=
      get_value types (fun r => r.iugu == source) (fun r => r.numSources)
    destination_num_sources :=
      get_value types (fun r => r.iugu == dest) (fun r => r.numSources) }

/-- Vehicle capacity used by calculate_milp_solution (optimizer.py line
420): TRANSPORT_MODES.get(mode, a default dict of capacity 30). -/
def vehicle_capacity_of (mode : String) : ℚ :=
  ((TRANSPORT_MODES.lookup mode).map (fun info => info.2)).getD 30

/-- STEP 1 of calculate_milp_solution: minimum shipment to satisfy the
destination, floored at zero. -/
def required_shipment_of (route : RouteData) : ℚ :=
  let d_close_min := qnum route.destination_closing_min 0
  let d_demand := qnum route.destination_demand 0
  let d_open := qnum route.destination_opening_stock 0
  max 0 (d_close_min + d_demand - d_open)

/-- STEP 2 of calculate_milp_solution: integer trips, ceiling of required
shipment over vehicle capacity when both are positive, else zero. -/
def num_trips_of (route : RouteData) : ℤ :=
  let vc := vehicle_capacity_of route.mode
  let rs := required_shipment_of route
  if 0 < vc ∧ 0 < rs then ⌈rs / vc⌉ else 0

/-- STEP 2 of calculate_milp_solution: shipment quantity, trips times
vehicle capacity in the positive branch and zero otherwise. -/
def shipment_qty_of (route : RouteData) : ℚ :=
  let vc := vehicle_capacity_of route.mode
  let rs := required_shipment_of route
  if 0 < vc ∧ 0 < rs then ((⌈rs / vc⌉ : ℤ) : ℚ) * vc else 0

/-- STEP 3 of calculate_milp_solution: (required production, production,
capacity violation).  Production applies only when the source plant type is
IU; required production is capped at capacity when capacity is positive and
exceeded, recording the shortfall. -/
def production_triple_of (route : RouteData) : ℚ × ℚ × ℚ :=
  if route.source_type == some "IU" then
    let s_close_min := qnum route.source_closing_min 0
    let s_demand := qnum route.source_demand 0
    let s_open := qnum route.source_opening_stock 0
    let capacity := qnum route.source_capacity 0
    let min_production_needed :=
      s_close_min + shipment_qty_of route + s_demand - s_open
    let required_production := max 0 min_production_needed
    if required_production > capacity ∧ 0 < capacity then
      (required_production, capacity, required_production - capacity)
    else (required_production, required_production, 0)
  else (0, 0, 0)

/-- STEP 4 of calculate_milp_solution: source ending inventory by mass
balance. -/
def source_ending_inv_of (route : RouteData) : ℚ :=
  qnum route.source_opening_stock 0 + (production_triple_of route).2.1 -
    shipment_qty_of route - qnum route.source_demand 0

/-- STEP 4 of calculate_milp_solution: destination ending inventory by mass
balance. -/
def dest_ending_inv_of (route : RouteData) : ℚ :=
  qnum route.destination_opening_stock 0 + shipment_qty_of route -
    qnum route.destination_demand 0

/-- STEP 5 of calculate_milp_solution: source safety stock check with the
0.01 tolerance. -/
def source_ss_satisfied_of (route : RouteData) : Bool :=
  decide (qnum route.source_closing_min 0 - 1 / 100 ≤
    source_ending_inv_of route)

/-- STEP 5 of calculate_milp_solution: destination safety stock check with
the 0.01 tolerance. -/
def dest_ss_satisfied_of (route : RouteData) : Bool :=
  decide (qnum route.destination_closing_min 0 - 1 / 100 ≤
    dest_ending_inv_of route)

/-- The issue messages of the feasibility block (optimizer.py lines
670-677), as tags of the formatted strings. -/
inductive Issue where
  | capacityShortfall : Issue
  | sourceSafetyStock : Issue
  | destSafetyStock : Issue
deriving DecidableEq

/-- The fields of the calculate_milp_solution result that the claims are
about: decision variables, objective decomposition and feasibility.  The
echoed route dictionary, formula strings, constraint report and display
metrics are not embedded. -/
structure MilpResult where
  required_shipment : ℚ
  num_trips : ℤ
  vehicle_capacity : ℚ
  shipment_qty : ℚ
  excess_at_dest : ℚ
  required_production : ℚ
  production : ℚ
  capacity_violation : ℚ
  source_ending_inv : ℚ
  dest_ending_inv : ℚ
  source_ss_satisfied : Bool
  dest_ss_satisfied : Bool
  is_feasible : Bool
  production_cost_comp : ℚ
  transport_cost_comp : ℚ
  holding_cost_comp : ℚ
  total_Z : ℚ
  fulfilled_demand : ℚ
  issues : List Issue
deriving DecidableEq

/-- The computation core of ClinkerOptimizer.calculate_milp_solution
(optimizer.py lines 397-693) on already-fetched route data, assembled from
the step definitions above exactly as the source computes its locals. -/
def calculate_milp_core (route : RouteData) : MilpResult :=
  let freight := qnum route.freight_cost 0
  let handling := qnum route.handling_cost 0
  let prod_cost := qnum route.production_cost 0
  let d_demand := qnum route.destination_demand 0
  let s_close_min := qnum route.source_closing_min 0
  let d_close_min := qnum route.destination_closing_min 0
  let required_shipment := required_shipment_of route
  let num_trips := num_trips_of route
  let shipment_qty := shipment_qty_of route
  let prodTriple := production_triple_of route
  let capacity_violation := prodTriple.2.2
  let source_ending_inv := source_ending_inv_of route
  let dest_ending_inv := dest_ending_inv_of route
  let source_ss := source_ss_satisfied_of route
  let dest_ss := dest_ss_satisfied_of route
  let production_cost_comp := prod_cost * prodTriple.2.1
  let transport_cost_comp := freight * shipment_qty + handling * shipment_qty
  let holding_rate := if 0 < prod_cost then prod_cost * HOLDING_COST_RATE else 0
  let source_excess_inv := max 0 (source_ending_inv - s_close_min)
  let dest_excess_inv := max 0 (dest_ending_inv - d_close_min)
  let holding_cost_comp :=
    holding_rate * source_excess_inv + holding_rate * dest_excess_inv
  { required_shipment := required_shipment
    num_trips := num_trips
    vehicle_capacity := vehicle_capacity_of route.mode
    shipment_qty := shipment_qty
    excess_at_dest := shipment_qty - required_shipment
    required_production := prodTriple.1
    production := prodTriple.2.1
    capacity_violation := capacity_violation
    source_ending_inv := source_ending_inv
    dest_ending_inv := dest_ending_inv
    source_ss_satisfied := source_ss
    dest_ss_satisfied := dest_ss
    is_feasible := source_ss && dest_ss && decide (capacity_violation = 0)
    production_cost_comp := production_cost_comp
    transport_cost_comp := transport_cost_comp
    holding_cost_comp := holding_cost_comp
    total_Z := production_cost_comp + transport_cost_comp + holding_cost_comp
    fulfilled_demand := d_demand
    issues :=
      (if 0 < capacity_violation then [Issue.capacityShortfall] else []) ++
      (if !source_ss then [Issue.sourceSafetyStock] else []) ++
      (if !dest_ss then [Issue.destSafetyStock] else []) }

/-- ClinkerOptimizer.calculate_milp_solution: fetch the route data, then
run the computation core. -/
def calculate_milp_solution (pd : ParserData) (source dest mode : String)
    (period : Int) : MilpResult :=
  calculate_milp_core (opt_get_route_data pd source dest mode period)

/-- TRANSPORT_INFO of ExcelDataParser (data_parser.py lines 70-74): mode
code to (name, vehicle capacity).  The emission factor feeds only display
metrics outside the claims and is not embedded. -/
def TRANSPORT_INFO : List (String × String × ℚ) :=
  [("T1", ("Road", 30)), ("T2", ("Rail", 3000)), ("T3", ("Sea", 10000))]

/-- One entry of the modes list of the /api/modes endpoint: code, name and
the vehicle capacity, `none` when the code is outside TRANSPORT_INFO and
the endpoint writes the Not-available string instead. -/
structure ModeDetail where
  code : String
  name : String
  vehicle_capacity : Option ℚ
deriving DecidableEq

/-- The mode-detail shaping of api.get_transport_modes (api.py lines
257-266). -/
def mode_detail (mode : String) : ModeDetail :=
  match TRANSPORT_INFO.lookup mode with
  | some info => ⟨mode, info.1, some info.2⟩
  | none => ⟨mode, mode, none⟩

/-- The responses of the /api/route endpoint (api.get_route_data, api.py
lines 298-334): a computed result, a validation-error list, the
dataset-not-loaded rejection, or the missing-parameter rejection. -/
inductive RouteResponse where
  | ok (r : MilpResult) : RouteResponse
  | err (errors : List SelErr) : RouteResponse
  | noData : RouteResponse
  | missingParams : RouteResponse
deriving DecidableEq

/-- api.get_route_data: reject when unloaded, reject when a parameter is
falsy (the period argument parses to an integer, so Python None-or-0
falsiness becomes the 0 test), validate the selection, and on success run
the optimizer. -/
def compute_route (st : ParserState) (source destination mode : String)
    (period : Int) : RouteResponse :=
  if !st.is_loaded then RouteResponse.noData
  else if source == "" || destination == "" || mode == "" || period == 0 then
    RouteResponse.missingParams
  else
    let v := validate_selection st (some source) (some destination)
      (some mode) (some period)
    if v.valid then
      RouteResponse.ok (calculate_milp_solution st.data source destination
        mode period)
    else RouteResponse.err v.errors

/-- Python str.strip() on a column or sheet name, modelled on the
character list (the built-in String.trim is equivalent but does not reduce
in the kernel). -/
def py_strip (s : String) : String :=
  ⟨((s.data.dropWhile Char.isWhitespace).reverse.dropWhile
      Char.isWhitespace).reverse⟩

/-- Python str.upper() on an (ASCII) column name, modelled on the
character list. -/
def py_upper (s : String) : String := ⟨s.data.map Char.toUpper⟩

/-- Python str.lower() on an (ASCII) sheet or file name, modelled on the
character list. -/
def py_lower (s : String) : String := ⟨s.data.map Char.toLower⟩

/-- Left-to-right removal of every occurrence of the pattern .csv,
modelling the str.replace call of load_from_excel. -/
def remove_csv : List Char → List Char
  | '.' :: 'c' :: 's' :: 'v' :: rest => remove_csv rest
  | c :: rest => c :: remove_csv rest
  | [] => []

/-- Python file.replace with pattern .csv and empty replacement. -/
def py_replace_csv (s : String) : String := ⟨remove_csv s.data⟩

/-- One entry of SHEET_CONFIG of ExcelDataParser (data_parser.py lines
19-67): sheet name, source file name, required columns, required flag. -/
structure SheetConfig where
  name : String
  file : String
  columns : List String
  required : Bool
deriving DecidableEq

/-- SHEET_CONFIG of ExcelDataParser, in source order. -/
def SHEET_CONFIG : List SheetConfig :=
  [⟨"IUGUType", "IUGUType.csv", ["IUGU CODE", "PLANT TYPE"], true⟩,
   ⟨"Logistics", "LogisticsIUGU.csv",
    ["FROM IU CODE", "TO IUGU CODE", "TRANSPORT CODE", "TIME PERIOD",
     "FREIGHT COST", "HANDLING COST", "QUANTITY MULTIPLIER"], true⟩,
   ⟨"Demand", "ClinkerDemand.csv", ["IUGU CODE", "TIME PERIOD", "DEMAND"],
    true⟩,
   ⟨"Capacity", "ClinkerCapacity.csv", ["IU CODE", "TIME PERIOD", "CAPACITY"],
    true⟩,
   ⟨"ProductionCost", "ProductionCost.csv",
    ["IU CODE", "TIME PERIOD", "PRODUCTION COST"], true⟩,
   ⟨"OpeningStock", "IUGUOpeningStock.csv", ["IUGU CODE", "OPENING STOCK"],
    true⟩,
   ⟨"ClosingStock", "IUGUClosingStock.csv",
    ["IUGU CODE", "TIME PERIOD", "MIN CLOSE STOCK", "MAX CLOSE STOCK"], true⟩,
   ⟨"Constraints", "IUGUConstraint.csv",
    ["IU CODE", "TRANSPORT CODE", "IUGU CODE", "TIME PERIOD", "BOUND TYPEID",
     "VALUE TYPEID", "Value"], false⟩,
   ⟨"HubOpeningStock", "HubOpeningStock.csv", ["IU", "IUGU", "Opening Stock"],
    false⟩]

/-- For the load and dataset-validation logic the store is the sheet-name
to column-list mapping: which sheets are keys of `self.data` and which
columns each holds is everything this logic inspects. -/
abbrev ColStore := List (String × List String)

/-- The dictionary validate_complete_dataset returns. -/
structure ValidationReport where
  complete : Bool
  present : List String
  missing : List String
  total_required : Nat
  loaded_count : Nat
deriving DecidableEq

/-- ExcelDataParser.validate_complete_dataset (data_parser.py lines
136-154): a required sheet is present when its name is a key of the store,
missing otherwise; complete when nothing is missing. -/
def validate_complete_dataset (store : ColStore) : ValidationReport :=
  let required_sheets := SHEET_CONFIG.filter (fun c => c.required)
  let present :=
    (required_sheets.filter (fun c => (store.lookup c.name).isSome)).map
      (fun c => c.name)
  let missing :=
    (required_sheets.filter (fun c => !(store.lookup c.name).isSome)).map
      (fun c => c.name)
  ⟨missing.isEmpty, present, missing, required_sheets.length, present.length⟩

/-- The state of the parser singleton the load operations mutate: the store
and the is_loaded flag. -/
structure LoadState where
  data : ColStore
  is_loaded : Bool
deriving DecidableEq

/-- The load errors, as tags of the formatted message strings. -/
inductive LoadErr where
  | fileMissing (file : String) : LoadErr
  | sheetMissing (name : String) : LoadErr
  | missingColumns (sheet : String) (cols : List String) : LoadErr
deriving DecidableEq

/-- The success flag and error list a load operation returns. -/
structure LoadResult where
  success : Bool
  errors : List LoadErr
deriving DecidableEq

/-- The sheet loop of ExcelDataParser.load_from_folder (data_parser.py
lines 82-112).  The folder maps a file name to its column list, or `none`
when the file is absent or unreadable (both branches only record an error
for a required sheet).  Every readable file is stored with its column
names stripped; no column validation happens on this path. -/
def folder_scan (folder : String → Option (List String)) :
    ColStore × List LoadErr :=
  SHEET_CONFIG.foldl
    (fun acc cfg =>
      match folder cfg.file with
      | some cols => (acc.1 ++ [(cfg.name, cols.map (fun c => py_strip c))], acc.2)
      | none =>
        (acc.1, acc.2 ++ if cfg.required then [LoadErr.fileMissing cfg.file]
          else []))
    ([], [])

/-- The state transition and result of load_from_folder: the new store is
the scan output (the previous store is gone), and is_loaded is set only on
success. -/
def load_from_folder (st : LoadState) (folder : String → Option (List String)) :
    LoadState × LoadResult :=
  (⟨(folder_scan folder).1,
    if (folder_scan folder).2.isEmpty then true else st.is_loaded⟩,
   ⟨(folder_scan folder).2.isEmpty, (folder_scan folder).2⟩)

/-- The sheet-name match of load_from_excel: the workbook sheet matches a
config when its lowercased name equals the lowercased config name or the
lowercased file name without the .csv suffix. -/
def excel_sheet_match (cfg : SheetConfig) (sheetName : String) : Bool :=
  py_lower sheetName == py_lower cfg.name ||
    py_lower sheetName == py_lower (py_replace_csv cfg.file)

/-- The required-column check of load_from_excel: the config columns with
no case-insensitive match among the stripped sheet columns. -/
def excel_missing_cols (cfg : SheetConfig) (cols : List String) :
    List String :=
  cfg.columns.filter
    (fun c => !((cols.map (fun x => py_upper (py_strip x))).contains (py_upper c)))

/-- The sheet loop of ExcelDataParser.load_from_excel (data_parser.py
lines 220-302) at the column level; a workbook is its (sheet name, column
list) list and sheet reads are modelled as succeeding.  A matched required
sheet is stored (with stripped columns) only when no required column is
missing, otherwise an invalid-columns error is recorded; a matched
optional sheet is stored unchecked; an unmatched required sheet records a
missing-sheet error.  Output: (store, missing-sheet errors,
invalid-column errors). -/
def excel_scan (sheets : List (String × List String)) :
    ColStore × List LoadErr × List LoadErr :=
  SHEET_CONFIG.foldl
    (fun acc cfg =>
      match sheets.find? (fun s => excel_sheet_match cfg s.1) with
      | some s =>
        let cols := s.2.map (fun c => py_strip c)
        if cfg.required then
          let missing_cols := excel_missing_cols cfg cols
          if missing_cols.isEmpty then
            (acc.1 ++ [(cfg.name, cols)], acc.2.1, acc.2.2)
          else
            (acc.1, acc.2.1,
             acc.2.2 ++ [LoadErr.missingColumns s.1 missing_cols])
        else (acc.1 ++ [(cfg.name, cols)], acc.2.1, acc.2.2)
      | none =>
        if cfg.required then
          (acc.1, acc.2.1 ++ [LoadErr.sheetMissing cfg.name], acc.2.2)
        else (acc.1, acc.2.1, acc.2.2))
    ([], [], [])

/-- The error list of load_from_excel: missing sheets first, then invalid
columns, as the source assembles load_errors. -/
def excel_errors (sheets : List (String × List String)) : List LoadErr :=
  (excel_scan sheets).2.1 ++ (excel_scan sheets).2.2

/-- The state transition and result of load_from_excel: the new store is
the scan output (the previous store is gone), and is_loaded is set only on
success. -/
def load_from_excel (st : LoadState) (sheets : List (String × List String)) :
    LoadState × LoadResult :=
  (⟨(excel_scan sheets).1,
    if (excel_errors sheets).isEmpty then true else st.is_loaded⟩,
   ⟨(excel_errors sheets).isEmpty, excel_errors sheets⟩)

/-- The completeness rule as the specification states it: condition (a)
asks for AT LEAST ONE logistics row of the pair with a non-missing freight
cost; (b), (c), (d) ask for a production-cost, capacity and demand row in
the loaded tables. -/
def pair_complete_spec (pd : ParserData) (source destination : String) :
    Prop :=
  (∃ ldf, pd.logistics = some ldf ∧ ∃ r ∈ ldf,
    r.fromIU = source ∧ r.toIUGU = destination ∧ r.freight ≠ none) ∧
  (∃ prod, pd.productionCost = some prod ∧ ∃ r ∈ prod, r.iu = source) ∧
  (∃ cap, pd.capacity = some cap ∧ ∃ r ∈ cap, r.iu = source) ∧
  (∃ dem, pd.demand = some dem ∧ ∃ r ∈ dem, r.iugu = destination)

/-- The completeness rule the code implements: as pair_complete_spec, but
condition (a) requires the FIRST logistics row of the pair to carry a
non-missing freight cost. -/
def pair_complete_firstrow (pd : ParserData) (source destination : String) :
    Prop :=
  (∃ ldf, pd.logistics = some ldf ∧ ∃ r,
    (ldf.filter (fun row => row.fromIU == source &&
      row.toIUGU == destination)).head? = some r ∧ r.freight ≠ none) ∧
  (∃ prod, pd.productionCost = some prod ∧ ∃ r ∈ prod, r.iu = source) ∧
  (∃ cap, pd.capacity = some cap ∧ ∃ r ∈ cap, r.iu = source) ∧
  (∃ dem, pd.demand = some dem ∧ ∃ r ∈ dem, r.iugu = destination)

/-- A dataset whose only route pair (S, G) has two logistics rows: the
first with a missing freight cost, the second with freight 5; S has
production-cost and capacity rows and G has a demand row. -/
def nanFirstData : ParserData :=
  { iuguType := some [⟨"S", some "IU", none⟩, ⟨"G", some "GU", none⟩]
    logistics := some
      [⟨"S", "G", "T1", 1, none, some 1, some 1⟩,
       ⟨"S", "G", "T1", 2, some 5, some 1, some 1⟩]
    demand := some [⟨"G", 1, some 50, none⟩]
    capacity := some [⟨"S", 1, some 100⟩]
    productionCost := some [⟨"S", 1, some 10⟩]
    openingStock := some []
    closingStock := some [] }

/-- A filtered list is nonempty exactly when some element satisfies the
predicate. -/
theorem filter_isEmpty_false_iff {α : Type} (l : List α) (p : α → Bool) :
    ((l.filter p).isEmpty = false) ↔ ∃ a ∈ l, p a = true := by
  simp [List.isEmpty_iff, List.filter_eq_nil_iff]

/-- Claim C1 counterexample: on nanFirstData the pair (S, G) satisfies all
four conditions of the claim, with the second logistics row carrying the
non-missing freight cost, yet _has_complete_data returns false, because it
inspects only the first matching row. -/
theorem has_complete_data_spec_counterexample :
    pair_complete_spec nanFirstData "S" "G" ∧
      has_complete_data nanFirstData "S" "G" = false := by
  constructor
  · refine ⟨?_, ?_, ?_, ?_⟩
    · exact ⟨_, rfl, ⟨"S", "G", "T1", 2, some 5, some 1, some 1⟩,
        by simp [nanFirstData], rfl, rfl, by simp⟩
    · exact ⟨_, rfl, ⟨"S", 1, some 10⟩, by simp [nanFirstData], rfl⟩
    · exact ⟨_, rfl, ⟨"S", 1, some 100⟩, by simp [nanFirstData], rfl⟩
    · exact ⟨_, rfl, ⟨"G", 1, some 50, none⟩, by simp [nanFirstData], rfl⟩
  · decide

/-- Claim C1 amended: _has_complete_data returns true if and only if the
pair has at least one logistics row AND the first such row has a
non-missing freight cost, the source has a production-cost row, the source
has a capacity row, and the destination has a demand row. -/
theorem has_complete_data_iff_firstrow (pd : ParserData)
    (source destination : String) :
    has_complete_data pd source destination = true ↔
      pair_complete_firstrow pd source destination := by
  unfold has_complete_data pair_complete_firstrow
  cases hl : pd.logistics with
  | none =>
    dsimp only
    simp only [Bool.false_eq_true, false_iff]
    rintro ⟨⟨l, hl2, -⟩, -⟩
    exact Option.noConfusion hl2
  | some ldf =>
    dsimp only
    cases hh : (ldf.filter (fun row => row.fromIU == source &&
        row.toIUGU == destination)).head? with
    | none =>
      dsimp only
      simp only [Bool.false_eq_true, false_iff]
      rintro ⟨⟨l, hl2, r, hr, -⟩, -⟩
      obtain rfl : ldf = l := by injection hl2
      rw [hh] at hr
      exact Option.noConfusion hr
    | some row0 =>
      dsimp only
      cases hf : row0.freight with
      | none =>
        dsimp only
        simp only [Bool.false_eq_true, false_iff]
        rintro ⟨⟨l, hl2, r, hr, hfr⟩, -⟩
        obtain rfl : ldf = l := by injection hl2
        rw [hh] at hr
        obtain rfl : row0 = r := by injection hr
        exact hfr hf
      | some q =>
        dsimp only
        rw [Bool.and_eq_true, Bool.and_eq_true]
        constructor
        · rintro ⟨⟨h1, h2⟩, h3⟩
          refine ⟨⟨ldf, rfl, row0, hh, by simp [hf]⟩, ?_, ?_, ?_⟩
          · cases hp : pd.productionCost with
            | none => rw [hp] at h1; simp at h1
            | some prod =>
              rw [hp] at h1
              simp only [Bool.not_eq_true'] at h1
              obtain ⟨r, hr, hr2⟩ := (filter_isEmpty_false_iff _ _).mp h1
              exact ⟨prod, rfl, r, hr, by simpa using hr2⟩
          · cases hp : pd.capacity with
            | none => rw [hp] at h2; simp at h2
            | some cap =>
              rw [hp] at h2
              simp only [Bool.not_eq_true'] at h2
              obtain ⟨r, hr, hr2⟩ := (filter_isEmpty_false_iff _ _).mp h2
              exact ⟨cap, rfl, r, hr, by simpa using hr2⟩
          · cases hp : pd.demand with
            | none => rw [hp] at h3; simp at h3
            | some dem =>
              rw [hp] at h3
              simp only [Bool.not_eq_true'] at h3
              obtain ⟨r, hr, hr2⟩ := (filter_isEmpty_false_iff _ _).mp h3
              exact ⟨dem, rfl, r, hr, by simpa using hr2⟩
        · rintro ⟨-, ⟨prod, hp, r1, hr1, hv1⟩, ⟨cap, hc, r2, hr2, hv2⟩,
            ⟨dem, hd, r3, hr3, hv3⟩⟩
          rw [hp, hc, hd]
          dsimp only
          refine ⟨⟨?_, ?_⟩, ?_⟩
          · simp only [Bool.not_eq_true']
            exact (filter_isEmpty_false_iff _ _).mpr ⟨r1, hr1, by simp [hv1]⟩
          · simp only [Bool.not_eq_true']
            exact (filter_isEmpty_false_iff _ _).mpr ⟨r2, hr2, by simp [hv2]⟩
          · simp only [Bool.not_eq_true']
            exact (filter_isEmpty_false_iff _ _).mpr ⟨r3, hr3, by simp [hv3]⟩

/-- A store holding all seven required sheets with their full schema
columns. -/
def fullStore : ColStore :=
  [("IUGUType", ["IUGU CODE", "PLANT TYPE"]),
   ("Logistics",
    ["FROM IU CODE", "TO IUGU CODE", "TRANSPORT CODE", "TIME PERIOD",
     "FREIGHT COST", "HANDLING COST", "QUANTITY MULTIPLIER"]),
   ("Demand", ["IUGU CODE", "TIME PERIOD", "DEMAND"]),
   ("Capacity", ["IU CODE", "TIME PERIOD", "CAPACITY"]),
   ("ProductionCost", ["IU CODE", "TIME PERIOD", "PRODUCTION COST"]),
   ("OpeningStock", ["IUGU CODE", "OPENING STOCK"]),
   ("ClosingStock",
    ["IUGU CODE", "TIME PERIOD", "MIN CLOSE STOCK", "MAX CLOSE STOCK"])]

/-- A parser state after a previous successful load of fullStore. -/
def prevLoaded : LoadState := ⟨fullStore, true⟩

/-- A folder holding only the logistics file; every other file is absent. -/
def logisticsOnlyFolder : String → Option (List String) := fun file =>
  if file == "LogisticsIUGU.csv" then
    some ["FROM IU CODE", "TO IUGU CODE", "TRANSPORT CODE", "TIME PERIOD",
      "FREIGHT COST", "HANDLING COST", "QUANTITY MULTIPLIER"]
  else none

/-- Claim C3 counterexample: re-loading from a folder that is missing
required files fails, yet the store no longer holds the previously loaded
dataset (it holds the single sheet that did read) while is_loaded stays
true. -/
theorem failed_load_clobbers_previous_dataset :
    (load_from_folder prevLoaded logisticsOnlyFolder).2.success = false ∧
    (load_from_folder prevLoaded logisticsOnlyFolder).1.data ≠
      prevLoaded.data ∧
    (load_from_folder prevLoaded logisticsOnlyFolder).1.data =
      [("Logistics",
        ["FROM IU CODE", "TO IUGU CODE", "TRANSPORT CODE", "TIME PERIOD",
         "FREIGHT COST", "HANDLING COST", "QUANTITY MULTIPLIER"])] ∧
    (load_from_folder prevLoaded logisticsOnlyFolder).1.is_loaded = true := by
  refine ⟨by decide, by decide, by decide, by decide⟩

/-- Claim C3 amended: both load operations clear the store at entry, so the
resulting store and result are independent of the previous state; a failed
load therefore leaves the store holding the partial candidate set rather
than the previous dataset, and is_loaded keeps its previous value exactly
when the load fails. -/
theorem load_replaces_store_and_keeps_flag_on_failure
    (st : LoadState) (folder : String → Option (List String))
    (sheets : List (String × List String)) :
    (load_from_folder st folder).1.data =
      (load_from_folder ⟨[], false⟩ folder).1.data ∧
    (load_from_folder st folder).2 = (load_from_folder ⟨[], false⟩ folder).2 ∧
    (load_from_folder st folder).1.is_loaded =
      ((load_from_folder st folder).2.success || st.is_loaded) ∧
    (load_from_excel st sheets).1.data =
      (load_from_excel ⟨[], false⟩ sheets).1.data ∧
    (load_from_excel st sheets).2 = (load_from_excel ⟨[], false⟩ sheets).2 ∧
    (load_from_excel st sheets).1.is_loaded =
      ((load_from_excel st sheets).2.success || st.is_loaded) := by
  refine ⟨rfl, rfl, ?_, rfl, rfl, ?_⟩
  · unfold load_from_folder
    cases h : (folder_scan folder).2.isEmpty <;> simp [h]
  · unfold load_from_excel
    cases h : (excel_errors sheets).isEmpty <;> simp [h]

/-- A store holding all seven required sheets as keys, where the Demand
table is missing its required DEMAND column. -/
def demandNoColStore : ColStore :=
  [("IUGUType", ["IUGU CODE", "PLANT TYPE"]),
   ("Logistics",
    ["FROM IU CODE", "TO IUGU CODE", "TRANSPORT CODE", "TIME PERIOD",
     "FREIGHT COST", "HANDLING COST", "QUANTITY MULTIPLIER"]),
   ("Demand", ["IUGU CODE", "TIME PERIOD"]),
   ("Capacity", ["IU CODE", "TIME PERIOD", "CAPACITY"]),
   ("ProductionCost", ["IU CODE", "TIME PERIOD", "PRODUCTION COST"]),
   ("OpeningStock", ["IUGU CODE", "OPENING STOCK"]),
   ("ClosingStock",
    ["IUGU CODE", "TIME PERIOD", "MIN CLOSE STOCK", "MAX CLOSE STOCK"])]

/-- The workbook whose sheets carry the demandNoColStore columns. -/
def demandNoColSheets : List (String × List String) :=
  demandNoColStore

/-- Claim C4 counterexample: validate_complete_dataset counts the Demand
table as present and the dataset as complete even though the table lacks
its required DEMAND column (under the stripped, case-insensitive
comparison of the claim), instead of reporting it missing. -/
theorem validator_counts_column_deficient_table_present :
    (validate_complete_dataset demandNoColStore).complete = true ∧
    "Demand" ∈ (validate_complete_dataset demandNoColStore).present ∧
    "Demand" ∉ (validate_complete_dataset demandNoColStore).missing ∧
    "DEMAND" ∉ (((demandNoColStore.lookup "Demand").getD []).map
      (fun c => py_upper (py_strip c))) := by
  refine ⟨by decide, by decide, by decide, by decide⟩

/-- Claim C4 amended: validate_complete_dataset counts a required table as
present exactly when its name is a key of the store, with no column check;
the required-column comparison (case-insensitive, whitespace-stripped) is
enforced only on the Excel load path, which reports the deficient sheet
and leaves it out of the store, failing the load. -/
theorem validator_presence_is_key_only :
    (∀ (store : ColStore),
      ((validate_complete_dataset store).complete = true ↔
        ∀ cfg ∈ SHEET_CONFIG, cfg.required = true →
          (store.lookup cfg.name).isSome = true) ∧
      (∀ n, n ∈ (validate_complete_dataset store).present ↔
        ∃ cfg ∈ SHEET_CONFIG, cfg.required = true ∧ cfg.name = n ∧
          (store.lookup cfg.name).isSome = true) ∧
      (∀ n, n ∈ (validate_complete_dataset store).missing ↔
        ∃ cfg ∈ SHEET_CONFIG, cfg.required = true ∧ cfg.name = n ∧
          (store.lookup cfg.name).isSome = false)) ∧
    (load_from_excel ⟨[], false⟩ demandNoColSheets).2.success = false ∧
    (load_from_excel ⟨[], false⟩ demandNoColSheets).2.errors =
      [LoadErr.missingColumns "Demand" ["DEMAND"]] ∧
    (load_from_excel ⟨[], false⟩ demandNoColSheets).1.data.lookup "Demand" =
      none := by
  refine ⟨?_, by decide, by decide, by decide⟩
  intro store
  unfold validate_complete_dataset
  refine ⟨?_, ?_, ?_⟩
  · rw [List.isEmpty_iff, List.map_eq_nil_iff, List.filter_eq_nil_iff]
    constructor
    · intro h cfg hc hr
      cases hb : (store.lookup cfg.name).isSome with
      | true => rfl
      | false =>
        exact absurd (by rw [hb]; rfl)
          (h cfg (List.mem_filter.mpr ⟨hc, hr⟩))
    · intro h cfg hm
      obtain ⟨h1, h2⟩ := List.mem_filter.mp hm
      intro hcontra
      rw [h cfg h1 h2] at hcontra
      simp at hcontra
  · intro n
    simp only [List.mem_map, List.mem_filter]
    constructor
    · rintro ⟨cfg, ⟨hmem, hreq⟩, rfl⟩
      exact ⟨cfg, hmem.1, hmem.2, rfl, hreq⟩
    · rintro ⟨cfg, hmem, hreq, rfl, hp⟩
      exact ⟨cfg, ⟨⟨hmem, hreq⟩, hp⟩, rfl⟩
  · intro n
    simp only [List.mem_map, List.mem_filter, Bool.not_eq_true']
    constructor
    · rintro ⟨cfg, ⟨hmem, hreq⟩, rfl⟩
      exact ⟨cfg, hmem.1, hmem.2, rfl, hreq⟩
    · rintro ⟨cfg, hmem, hreq, rfl, hp⟩
      exact ⟨cfg, ⟨⟨hmem, hreq⟩, hp⟩, rfl⟩

/-- A loaded dataset: source S (type IU) ships to destination G (type GU)
via mode T1 in periods 1 and 2; G has a demand row for period 1 only; S
has capacity and production-cost rows for both periods. -/
def demoData : ParserData :=
  { iuguType := some [⟨"S", some "IU", none⟩, ⟨"G", some "GU", none⟩]
    logistics := some
      [⟨"S", "G", "T1", 1, some 5, some 1, some 1⟩,
       ⟨"S", "G", "T1", 2, some 5, some 1, some 1⟩]
    demand := some [⟨"G", 1, some 200, none⟩]
    capacity := some [⟨"S", 1, some 1000⟩, ⟨"S", 2, some 1000⟩]
    productionCost := some [⟨"S", 1, some 10⟩, ⟨"S", 2, some 10⟩]
    openingStock := some [⟨"S", some 100⟩, ⟨"G", some 20⟩]
    closingStock := some [⟨"S", 1, some 50, none⟩, ⟨"G", 1, some 30, none⟩] }

/-- The parser state after demoData loaded successfully. -/
def demoState : ParserState := ⟨demoData, true⟩

/-- Claim C2 counterexample: on demoData the query (S, G, T1, period 2)
has no demand row for G in period 2, yet the route endpoint returns a
computed result (period 2 passes validation because it appears in the
Logistics period set), with the missing demand coerced to 0 rather than a
selection error naming the period. -/
theorem compute_route_missing_period_demand_returns_result :
    get_value (demoData.demand.getD [])
      (fun r => r.iugu == "G" && r.period == 2) (fun r => r.demand) = none ∧
    (validate_selection demoState (some "S") (some "G") (some "T1")
      (some 2)).valid = true ∧
    compute_route demoState "S" "G" "T1" 2 =
      RouteResponse.ok (calculate_milp_solution demoData "S" "G" "T1" 2) ∧
    (calculate_milp_solution demoData "S" "G" "T1" 2).fulfilled_demand = 0 := by
  refine ⟨rfl, by decide, ?_, rfl⟩
  have hv : (validate_selection demoState (some "S") (some "G") (some "T1")
      (some 2)).valid = true := by decide
  unfold compute_route
  rw [show (!demoState.is_loaded) = false from rfl]
  rw [show (("S" == "") || ("G" == "") || ("T1" == "") || ((2 : Int) == 0))
    = false from rfl]
  simp only [Bool.false_eq_true, if_false, hv, if_true]
  rfl

/-- Claim C2 amended: a computeRoute query that passes selection validation
is answered with a computed result even when the destination has no demand
row for the queried period; the missing demand is coerced to 0
(fulfilled_demand is 0), not reported as a selection error. -/
theorem compute_route_valid_missing_demand_coerced
    (st : ParserState) (s d m : String) (p : Int)
    (hLoad : st.is_loaded = true)
    (hs : (s == "") = false) (hd : (d == "") = false)
    (hm : (m == "") = false) (hp : (p == 0) = false)
    (hv : (validate_selection st (some s) (some d) (some m)
      (some p)).valid = true)
    (hdem : get_value (st.data.demand.getD [])
      (fun r => r.iugu == d && r.period == p) (fun r => r.demand) = none) :
    compute_route st s d m p =
      RouteResponse.ok (calculate_milp_solution st.data s d m p) ∧
    (calculate_milp_solution st.data s d m p).fulfilled_demand = 0 := by
  constructor
  · unfold compute_route
    rw [hLoad, hs, hd, hm, hp]
    simp [hv]
  · show qnum (opt_get_route_data st.data s d m p).destination_demand 0 = 0
    have : (opt_get_route_data st.data s d m p).destination_demand =
        get_value (st.data.demand.getD [])
          (fun r => r.iugu == d && r.period == p) (fun r => r.demand) := rfl
    rw [this, hdem]
    rfl

/-- Claim C2 amended, witnessed at the concrete dataset demoData with the
query (S, G, T1, period 2). -/
theorem compute_route_valid_missing_demand_coerced_witness :
    demoState.is_loaded = true ∧
    ("S" == "") = false ∧ ("G" == "") = false ∧ ("T1" == "") = false ∧
    ((2 : Int) == 0) = false ∧
    (validate_selection demoState (some "S") (some "G") (some "T1")
      (some 2)).valid = true ∧
    get_value (demoState.data.demand.getD [])
      (fun r => r.iugu == "G" && r.period == 2) (fun r => r.demand) = none ∧
    (compute_route demoState "S" "G" "T1" 2 =
      RouteResponse.ok (calculate_milp_solution demoState.data "S" "G" "T1" 2) ∧
     (calculate_milp_solution demoState.data "S" "G" "T1" 2).fulfilled_demand
       = 0) :=
  ⟨rfl, rfl, rfl, rfl, rfl, by decide, rfl,
   compute_route_valid_missing_demand_coerced demoState "S" "G" "T1" 2
     rfl rfl rfl rfl rfl (by decide) rfl⟩

/-- Claim C10: validate_selection runs its period check only on a truthy
period: with period 0 the check is skipped exactly as with period None,
and on the loaded demoData a selection with period 0 is reported valid
even though 0 is not among the dataset periods. -/
theorem validate_selection_period_zero_skipped :
    (∀ (st : ParserState) (src dst m : Option String),
      validate_selection st src dst m (some 0) =
        validate_selection st src dst m none) ∧
    0 ∉ periods_meta demoData ∧
    (validate_selection demoState (some "S") (some "G") (some "T1")
      (some 0)).valid = true := by
  refine ⟨?_, by decide, by decide⟩
  intro st src dst m
  unfold validate_selection
  simp

/-- The mode table lookup always yields a positive vehicle capacity: 30 and
3000 for the listed modes, the default 30 otherwise. -/
theorem vehicle_capacity_of_pos (mode : String) :
    0 < vehicle_capacity_of mode := by
  unfold vehicle_capacity_of TRANSPORT_MODES
  simp only [List.lookup]
  cases h1 : mode == "T1" with
  | true => norm_num
  | false =>
    cases h2 : mode == "T2" with
    | true => norm_num
    | false => norm_num

/-- Required shipment is floored at zero. -/
theorem required_shipment_of_nonneg (route : RouteData) :
    0 ≤ required_shipment_of route := le_max_left 0 _

/-- The recorded capacity violation is never negative: it is zero except in
the capped branch, where it is the positive excess of required production
over capacity. -/
theorem capacity_violation_nonneg (route : RouteData) :
    0 ≤ (production_triple_of route).2.2 := by
  unfold production_triple_of
  by_cases hiu : (route.source_type == some "IU") = true
  · rw [if_pos hiu]
    dsimp only
    by_cases hc : max 0 (qnum route.source_closing_min 0 +
        shipment_qty_of route + qnum route.source_demand 0 -
        qnum route.source_opening_stock 0) > qnum route.source_capacity 0 ∧
        0 < qnum route.source_capacity 0
    · rw [if_pos hc]
      dsimp only
      linarith [hc.1]
    · rw [if_neg hc]
  · rw [if_neg hiu]

/-- Projection of the result record: the capacity violation field. -/
theorem core_capacity_violation (route : RouteData) :
    (calculate_milp_core route).capacity_violation =
      (production_triple_of route).2.2 := rfl

/-- Projection of the result record: the source ending inventory field. -/
theorem core_source_ending (route : RouteData) :
    (calculate_milp_core route).source_ending_inv =
      source_ending_inv_of route := rfl

/-- Projection of the result record: the destination ending inventory
field. -/
theorem core_dest_ending (route : RouteData) :
    (calculate_milp_core route).dest_ending_inv =
      dest_ending_inv_of route := rfl

/-- Projection of the result record: the feasibility flag. -/
theorem core_is_feasible (route : RouteData) :
    (calculate_milp_core route).is_feasible =
      (source_ss_satisfied_of route && dest_ss_satisfied_of route &&
        decide ((production_triple_of route).2.2 = 0)) := rfl

/-- Projection of the result record: the issue list. -/
theorem core_issues (route : RouteData) :
    (calculate_milp_core route).issues =
      (if 0 < (production_triple_of route).2.2 then [Issue.capacityShortfall]
        else []) ++
      (if !source_ss_satisfied_of route then [Issue.sourceSafetyStock]
        else []) ++
      (if !dest_ss_satisfied_of route then [Issue.destSafetyStock]
        else []) := rfl

/-- A guarded issue tag appended on a failed boolean check equals the same
tag appended when the underlying proposition fails. -/
theorem issue_tag_swap (P : Prop) [Decidable P] (t : List Issue) :
    (if (!(decide P)) = true then t else []) = if P then [] else t := by
  by_cases h : P
  · rw [decide_eq_true h, if_pos h]
    simp
  · rw [decide_eq_false h, if_neg h]
    simp

/-- Claim C5: the feasibility verdict is true exactly when the capacity
violation is zero and both ending inventories clear their closing-stock
minimum less the 0.01 tolerance; the issue list is exactly the
capacity-shortfall message (when the violation is positive), then the
source safety-stock message (when the source floor check fails), then the
destination safety-stock message (when the destination floor check
fails). -/
theorem feasibility_verdict_iff_and_issue_order (pd : ParserData)
    (s d m : String) (p : Int) :
    ((calculate_milp_solution pd s d m p).is_feasible = true ↔
      ((calculate_milp_solution pd s d m p).capacity_violation = 0 ∧
       qnum (opt_get_route_data pd s d m p).source_closing_min 0 - 1 / 100 ≤
         (calculate_milp_solution pd s d m p).source_ending_inv ∧
       qnum (opt_get_route_data pd s d m p).destination_closing_min 0 - 1 / 100
         ≤ (calculate_milp_solution pd s d m p).dest_ending_inv)) ∧
    0 ≤ (calculate_milp_solution pd s d m p).capacity_violation ∧
    (calculate_milp_solution pd s d m p).issues =
      (if 0 < (calculate_milp_solution pd s d m p).capacity_violation then
        [Issue.capacityShortfall] else []) ++
      (if qnum (opt_get_route_data pd s d m p).source_closing_min 0 - 1 / 100 ≤
          (calculate_milp_solution pd s d m p).source_ending_inv then []
        else [Issue.sourceSafetyStock]) ++
      (if qnum (opt_get_route_data pd s d m p).destination_closing_min 0 -
          1 / 100 ≤ (calculate_milp_solution pd s d m p).dest_ending_inv then
        [] else [Issue.destSafetyStock]) := by
  rw [show calculate_milp_solution pd s d m p =
    calculate_milp_core (opt_get_route_data pd s d m p) from rfl]
  generalize opt_get_route_data pd s d m p = route
  rw [core_is_feasible, core_capacity_violation, core_source_ending,
    core_dest_ending, core_issues]
  refine ⟨?_, capacity_violation_nonneg route, ?_⟩
  · rw [Bool.and_eq_true, Bool.and_eq_true]
    unfold source_ss_satisfied_of dest_ss_satisfied_of
    simp only [decide_eq_true_eq]
    tauto
  · unfold source_ss_satisfied_of dest_ss_satisfied_of
    rw [issue_tag_swap, issue_tag_swap]

/-- Projection of the result record: the required shipment field. -/
theorem core_required_shipment (route : RouteData) :
    (calculate_milp_core route).required_shipment =
      required_shipment_of route := rfl

/-- Projection of the result record: the trip count field. -/
theorem core_num_trips (route : RouteData) :
    (calculate_milp_core route).num_trips = num_trips_of route := rfl

/-- Projection of the result record: the vehicle capacity field. -/
theorem core_vehicle_capacity (route : RouteData) :
    (calculate_milp_core route).vehicle_capacity =
      vehicle_capacity_of route.mode := rfl

/-- Projection of the result record: the shipment quantity field. -/
theorem core_shipment_qty (route : RouteData) :
    (calculate_milp_core route).shipment_qty = shipment_qty_of route := rfl

/-- The shipment quantity is always the trip count times the vehicle
capacity (in the idle branch both are zero). -/
theorem shipment_qty_of_eq (route : RouteData) :
    shipment_qty_of route =
      (num_trips_of route : ℚ) * vehicle_capacity_of route.mode := by
  unfold shipment_qty_of num_trips_of
  by_cases h : 0 < vehicle_capacity_of route.mode ∧
    0 < required_shipment_of route
  · rw [if_pos h, if_pos h]
  · rw [if_neg h, if_neg h]
    rw [Int.cast_zero, zero_mul]

/-- Rounding up to whole trips never under-delivers. -/
theorem shipment_qty_of_ge (route : RouteData) :
    required_shipment_of route ≤ shipment_qty_of route := by
  unfold shipment_qty_of
  by_cases h : 0 < vehicle_capacity_of route.mode ∧
    0 < required_shipment_of route
  · rw [if_pos h]
    exact (div_le_iff₀ h.1).mp (Int.le_ceil _)
  · rw [if_neg h]
    push_neg at h
    exact h (vehicle_capacity_of_pos route.mode)

/-- Rounding up to whole trips over-delivers by less than one vehicle
load. -/
theorem shipment_qty_of_lt (route : RouteData) :
    shipment_qty_of route - required_shipment_of route <
      vehicle_capacity_of route.mode := by
  unfold shipment_qty_of
  by_cases h : 0 < vehicle_capacity_of route.mode ∧
    0 < required_shipment_of route
  · rw [if_pos h]
    have hx : ((⌈required_shipment_of route /
        vehicle_capacity_of route.mode⌉ : ℤ) : ℚ) <
        required_shipment_of route / vehicle_capacity_of route.mode + 1 :=
      Int.ceil_lt_add_one _
    have h2 : ((⌈required_shipment_of route /
        vehicle_capacity_of route.mode⌉ : ℤ) : ℚ) *
        vehicle_capacity_of route.mode <
        (required_shipment_of route / vehicle_capacity_of route.mode + 1) *
        vehicle_capacity_of route.mode :=
      (mul_lt_mul_right h.1).mpr hx
    have h3 : (required_shipment_of route / vehicle_capacity_of route.mode
        + 1) * vehicle_capacity_of route.mode =
        required_shipment_of route + vehicle_capacity_of route.mode := by
      rw [add_mul, div_mul_cancel₀ _ (ne_of_gt h.1), one_mul]
    linarith
  · rw [if_neg h]
    push_neg at h
    have hvc := vehicle_capacity_of_pos route.mode
    have hrs := h hvc
    have := required_shipment_of_nonneg route
    linarith

/-- With no required shipment there is no trip and no shipment. -/
theorem num_trips_of_zero (route : RouteData)
    (h : required_shipment_of route = 0) :
    num_trips_of route = 0 ∧ shipment_qty_of route = 0 := by
  unfold num_trips_of shipment_qty_of
  rw [if_neg, if_neg]
  · exact ⟨rfl, rfl⟩
  · rintro ⟨-, hpos⟩
    rw [h] at hpos
    exact lt_irrefl 0 hpos
  · rintro ⟨-, hpos⟩
    rw [h] at hpos
    exact lt_irrefl 0 hpos

/-- Claim C6: for every computed result the vehicle capacity is positive,
the shipment quantity is the trip count times the vehicle capacity, it
never under-delivers the required shipment, it over-rounds by less than
one vehicle load, and a zero required shipment yields zero trips and zero
shipment. -/
theorem trip_rounding_law (pd : ParserData) (s d m : String) (p : Int) :
    0 < (calculate_milp_solution pd s d m p).vehicle_capacity ∧
    (calculate_milp_solution pd s d m p).shipment_qty =
      ((calculate_milp_solution pd s d m p).num_trips : ℚ) *
        (calculate_milp_solution pd s d m p).vehicle_capacity ∧
    (calculate_milp_solution pd s d m p).required_shipment ≤
      (calculate_milp_solution pd s d m p).shipment_qty ∧
    (calculate_milp_solution pd s d m p).shipment_qty -
        (calculate_milp_solution pd s d m p).required_shipment <
      (calculate_milp_solution pd s d m p).vehicle_capacity ∧
    ((calculate_milp_solution pd s d m p).required_shipment = 0 →
      (calculate_milp_solution pd s d m p).num_trips = 0 ∧
      (calculate_milp_solution pd s d m p).shipment_qty = 0) := by
  rw [show calculate_milp_solution pd s d m p =
    calculate_milp_core (opt_get_route_data pd s d m p) from rfl]
  generalize opt_get_route_data pd s d m p = route
  rw [core_vehicle_capacity, core_shipment_qty, core_num_trips,
    core_required_shipment]
  exact ⟨vehicle_capacity_of_pos route.mode, shipment_qty_of_eq route,
    shipment_qty_of_ge route, shipment_qty_of_lt route,
    fun h => num_trips_of_zero route h⟩

/-- Projection of the result record: the production field. -/
theorem core_production (route : RouteData) :
    (calculate_milp_core route).production =
      (production_triple_of route).2.1 := rfl

/-- Claim C7: both mass-balance equations hold exactly, with missing
opening stock and demand coerced to zero. -/
theorem mass_balance_exact (pd : ParserData) (s d m : String) (p : Int) :
    (calculate_milp_solution pd s d m p).source_ending_inv =
      qnum (opt_get_route_data pd s d m p).source_opening_stock 0 +
        (calculate_milp_solution pd s d m p).production -
        (calculate_milp_solution pd s d m p).shipment_qty -
        qnum (opt_get_route_data pd s d m p).source_demand 0 ∧
    (calculate_milp_solution pd s d m p).dest_ending_inv =
      qnum (opt_get_route_data pd s d m p).destination_opening_stock 0 +
        (calculate_milp_solution pd s d m p).shipment_qty -
        qnum (opt_get_route_data pd s d m p).destination_demand 0 :=
  ⟨rfl, rfl⟩

/-- Required shipment is monotone in the destination demand, all other
route data fixed. -/
theorem required_shipment_of_mono (route : RouteData) (d1 d2 : ℚ)
    (h : d1 ≤ d2) :
    required_shipment_of { route with destination_demand := some d1 } ≤
      required_shipment_of { route with destination_demand := some d2 } := by
  unfold required_shipment_of
  dsimp only
  exact max_le_max le_rfl (by dsimp [qnum]; linarith)

/-- The trip count is monotone in the required shipment when the mode (and
with it the vehicle capacity) agrees. -/
theorem num_trips_of_mono (r1 r2 : RouteData) (hmode : r1.mode = r2.mode)
    (hrs : required_shipment_of r1 ≤ required_shipment_of r2) :
    num_trips_of r1 ≤ num_trips_of r2 := by
  unfold num_trips_of
  rw [hmode]
  by_cases h1 : 0 < vehicle_capacity_of r2.mode ∧
    0 < required_shipment_of r1
  · rw [if_pos h1, if_pos ⟨h1.1, lt_of_lt_of_le h1.2 hrs⟩]
    exact Int.ceil_le_ceil (by gcongr; exact le_of_lt h1.1)
  · rw [if_neg h1]
    by_cases h2 : 0 < vehicle_capacity_of r2.mode ∧
      0 < required_shipment_of r2
    · rw [if_pos h2]
      exact Int.ceil_nonneg (le_of_lt (div_pos h2.2 h2.1))
    · rw [if_neg h2]

/-- Claim C8: with every other calculator input fixed, a larger destination
demand never decreases the required shipment or the trip count. -/
theorem demand_monotonicity (route : RouteData) (d1 d2 : ℚ) (h : d1 ≤ d2) :
    (calculate_milp_core
        { route with destination_demand := some d1 }).required_shipment ≤
      (calculate_milp_core
        { route with destination_demand := some d2 }).required_shipment ∧
    (calculate_milp_core
        { route with destination_demand := some d1 }).num_trips ≤
      (calculate_milp_core
        { route with destination_demand := some d2 }).num_trips := by
  rw [core_required_shipment, core_required_shipment, core_num_trips,
    core_num_trips]
  exact ⟨required_shipment_of_mono route d1 d2 h,
    num_trips_of_mono _ _ rfl (required_shipment_of_mono route d1 d2 h)⟩

/-- A concrete route record: the scenario-A style route from S to G via T1
in period 1. -/
def exRoute : RouteData :=
  { source := "S"
    destination := "G"
    mode := "T1"
    period := 1
    freight_cost := some 5
    handling_cost := some 1
    quantity_multiplier := some 1
    production_cost := some 10
    source_capacity := some 1000
    source_demand := none
    destination_demand := some 200
    min_fulfillment_pct := none
    source_opening_stock := some 100
    destination_opening_stock := some 20
    source_closing_min := some 50
    source_closing_max := none
    destination_closing_min := some 30
    destination_closing_max := none
    source_type := some "IU"
    destination_type := some "GU"
    source_num_sources := none
    destination_num_sources := none }

/-- Claim C8, witnessed on the concrete route exRoute at demands 100 and
200. -/
theorem demand_monotonicity_witness :
    (100 : ℚ) ≤ 200 ∧
    ((calculate_milp_core
        { exRoute with destination_demand := some 100 }).required_shipment ≤
      (calculate_milp_core
        { exRoute with destination_demand := some 200 }).required_shipment ∧
     (calculate_milp_core
        { exRoute with destination_demand := some 100 }).num_trips ≤
      (calculate_milp_core
        { exRoute with destination_demand := some 200 }).num_trips) :=
  ⟨by norm_num, demand_monotonicity exRoute 100 200 (by norm_num)⟩

/-- Claim C9 counterexample: T3 is outside the transport-mode table of the
calculator, so the calculator silently uses the default vehicle capacity
30, while the modes endpoint reports T3 with capacity 10000 (from the
parser table that does list T3) rather than as unavailable. -/
theorem t3_capacity_divergence :
    "T3" ∉ TRANSPORT_MODES.map (fun mo => mo.1) ∧
    (mode_detail "T3").vehicle_capacity = some 10000 ∧
    (calculate_milp_solution demoData "S" "G" "T3" 1).vehicle_capacity
      = 30 := by
  refine ⟨by decide, rfl, rfl⟩

/-- Claim C9 amended: for every mode code outside the calculator table
(neither T1 nor T2) the calculator silently uses vehicle capacity 30 and
the shipment is computed as trip count times 30; the modes endpoint
reports the capacity as unavailable only when the code is also outside the
parser table, so for T3 it reports 10000 while the calculator uses 30. -/
theorem default_capacity_for_unknown_mode (pd : ParserData) (s d : String)
    (p : Int) (mode : String) (h1 : mode ≠ "T1") (h2 : mode ≠ "T2") :
    (calculate_milp_solution pd s d mode p).vehicle_capacity = 30 ∧
    (calculate_milp_solution pd s d mode p).shipment_qty =
      ((calculate_milp_solution pd s d mode p).num_trips : ℚ) * 30 ∧
    (mode_detail mode).vehicle_capacity =
      (if mode = "T3" then some 10000 else none) := by
  have hvc : vehicle_capacity_of mode = 30 := by
    unfold vehicle_capacity_of TRANSPORT_MODES
    simp only [List.lookup]
    rw [show (mode == "T1") = false from beq_eq_false_iff_ne.mpr h1,
      show (mode == "T2") = false from beq_eq_false_iff_ne.mpr h2]
    rfl
  refine ⟨?_, ?_, ?_⟩
  · show vehicle_capacity_of
      (opt_get_route_data pd s d mode p).mode = 30
    exact hvc
  · rw [show calculate_milp_solution pd s d mode p =
      calculate_milp_core (opt_get_route_data pd s d mode p) from rfl,
      core_shipment_qty, core_num_trips, shipment_qty_of_eq]
    rw [show (opt_get_route_data pd s d mode p).mode = mode from rfl, hvc]
  · unfold mode_detail TRANSPORT_INFO
    simp only [List.lookup]
    rw [show (mode == "T1") = false from beq_eq_false_iff_ne.mpr h1,
      show (mode == "T2") = false from beq_eq_false_iff_ne.mpr h2]
    by_cases h3 : mode = "T3"
    · rw [show (mode == "T3") = true from beq_iff_eq.mpr h3, if_pos h3]
    · rw [show (mode == "T3") = false from beq_eq_false_iff_ne.mpr h3,
        if_neg h3]

/-- Claim C9 amended, witnessed at mode T3 on demoData. -/
theorem default_capacity_for_unknown_mode_witness :
    ("T3" : String) ≠ "T1" ∧ ("T3" : String) ≠ "T2" ∧
    ((calculate_milp_solution demoData "S" "G" "T3" 1).vehicle_capacity = 30 ∧
     (calculate_milp_solution demoData "S" "G" "T3" 1).shipment_qty =
       ((calculate_milp_solution demoData "S" "G" "T3" 1).num_trips : ℚ) * 30 ∧
     (mode_detail "T3").vehicle_capacity =
       (if ("T3" : String) = "T3" then some 10000 else none)) :=
  ⟨by decide, by decide,
   default_capacity_for_unknown_mode demoData "S" "G" 1 "T3"
     (by decide) (by decide)⟩
